import Mathlib

set_option maxHeartbeats 1000000
set_option maxRecDepth 4000

/-!
Shallow embedding of the CourseCrafter generation core:

* outline schema and validator (`app/agents/schemas.py`, `app/agents/workflow.py`),
* first-balanced-JSON-object extraction (`app/agents/workflow.py`),
* module markdown validator and writer (`app/agents/module_writer.py`),
* the validate-and-repair generation loops of both handlers,
* the run-record update helper, the job handlers and the Redis worker loop
  with its retry accounting (`app/jobs/tasks.py`).

Machine integers are modelled as `Nat`/`Int`, timestamps as booleans that
record whether the field was ever set, and the external LLM as an oracle
`gen : Nat → String` giving the text returned by the i-th generation call.
Temperatures are recorded in tenths (`1` = 0.1, `2` = 0.2) to avoid floats.
-/

/-- WeekPlan from `app/agents/schemas.py`. `week` is a `Nat`; the pydantic
constraint `conint(ge=1, le=52)` is part of `schemaOk` below. -/
structure WeekPlan where
  week : Nat
  title : String
  outcomes : List String
deriving Repr, DecidableEq

/-- RoadmapOutline from `app/agents/schemas.py`. -/
structure RoadmapOutline where
  weeks : List WeekPlan
deriving Repr, DecidableEq

/-- Python `str.strip()` on a character list (ASCII whitespace), written
so it reduces inside the kernel. -/
def stripList (l : List Char) : List Char :=
  ((l.dropWhile Char.isWhitespace).reverse.dropWhile Char.isWhitespace).reverse

/-- Python `str.strip()` on strings. -/
def pyStrip (s : String) : String := String.mk (stripList s.toList)

/-- Does the second list start with the first (the pattern)? -/
def listStarts : List Char → List Char → Bool
  | [], _ => true
  | _ :: _, [] => false
  | p :: ps, c :: cs => p == c && listStarts ps cs

/-- Python `s.startswith(pat)`, written so it reduces inside the kernel. -/
def strStarts (s pat : String) : Bool := listStarts pat.toList s.toList

/-- Python `s.split(sep)` for a one-character separator, on char lists. -/
def splitOnChar (sep : Char) : List Char → List (List Char)
  | [] => [[]]
  | c :: cs =>
    if c = sep then [] :: splitOnChar sep cs
    else
      match splitOnChar sep cs with
      | [] => [[c]]
      | h :: t => (c :: h) :: t

/-- Python `pat in s` substring containment, on char lists. -/
def listContains : List Char → List Char → Bool
  | [], pat => pat.isEmpty
  | h :: t, pat => listStarts pat (h :: t) || listContains t pat

/-- Python `pat in s` on strings. -/
def strContains (s pat : String) : Bool := listContains s.toList pat.toList

/-- Python `str.lower()` (ASCII). -/
def pyLower (s : String) : String := String.mk (s.toList.map Char.toLower)

/-- The declared pydantic field constraints of `WeekPlan` and `RoadmapOutline`
(`app/agents/schemas.py` lines 5-11): any value produced by
`RoadmapOutline.model_validate_json` satisfies them. -/
def schemaOk (o : RoadmapOutline) : Prop :=
  (4 ≤ o.weeks.length ∧ o.weeks.length ≤ 52) ∧
  ∀ w ∈ o.weeks,
    (1 ≤ w.week ∧ w.week ≤ 52) ∧
    (3 ≤ w.title.length ∧ w.title.length ≤ 100) ∧
    (2 ≤ w.outcomes.length ∧ w.outcomes.length ≤ 8)

instance schemaOkDecidable (o : RoadmapOutline) : Decidable (schemaOk o) := by
  unfold schemaOk; infer_instance

/-- Rendering of a Python list of ints, as an f-string interpolation
`f"\x7bnums\x7d"` produces it, e.g. `[1, 2, 3]`. -/
def pyListNat (ns : List Nat) : String :=
  "[" ++ String.intercalate ", " (ns.map toString) ++ "]"

/-- Inner loop of `_validate_outline` over one week's outcomes
(`app/agents/workflow.py` lines 74-76): raises on the first blank outcome. -/
def checkOutcomes (wk : Nat) : List String → Option String
  | [] => none
  | s :: ss =>
    if pyStrip s = "" then some ("Week " ++ toString wk ++ " has empty outcome")
    else checkOutcomes wk ss

/-- Per-week sanity checks of `_validate_outline`
(`app/agents/workflow.py` lines 69-76). -/
def checkWeek (w : WeekPlan) : Option String :=
  if pyStrip w.title = "" then some ("Week " ++ toString w.week ++ " title is empty")
  else if w.outcomes.length < 2 ∨ 6 < w.outcomes.length then
    some ("Week " ++ toString w.week ++ " must have 2-6 outcomes, got " ++
      toString w.outcomes.length)
  else checkOutcomes w.week w.outcomes

/-- The week loop of `_validate_outline`: the first failing week raises. -/
def checkWeeks : List WeekPlan → Option String
  | [] => none
  | w :: ws =>
    match checkWeek w with
    | some e => some e
    | none => checkWeeks ws

/-- Outline validator `_validate_outline` from `app/agents/workflow.py`
lines 59-76. Returns `none` on acceptance, `some errorMessage` on the first
raised `ValueError`. -/
def _validate_outline (o : RoadmapOutline) (duration_weeks : Nat) : Option String :=
  if o.weeks.length ≠ duration_weeks then
    some ("Expected " ++ toString duration_weeks ++ " weeks, got " ++
      toString o.weeks.length)
  else
    let nums := o.weeks.map WeekPlan.week
    if nums ≠ List.range' 1 duration_weeks then
      some ("Week numbers must be exactly 1.." ++ toString duration_weeks ++
        " in order, got " ++ pyListNat nums)
    else checkWeeks o.weeks

/-- Acceptance condition of the outline validator in the words of the spec:
exactly N week entries, week numbers exactly `1..N` strictly increasing,
each title non-empty after trimming, each week with 2 to 6 outcome strings
that are non-empty after trimming. -/
def outlineSpecOk (o : RoadmapOutline) (n : Nat) : Prop :=
  o.weeks.length = n ∧
  o.weeks.map WeekPlan.week = List.range' 1 n ∧
  ∀ w ∈ o.weeks,
    pyStrip w.title ≠ "" ∧
    (2 ≤ w.outcomes.length ∧ w.outcomes.length ≤ 6) ∧
    ∀ s ∈ w.outcomes, pyStrip s ≠ ""

instance outlineSpecOkDecidable (o : RoadmapOutline) (n : Nat) :
    Decidable (outlineSpecOk o n) := by
  unfold outlineSpecOk; infer_instance

/-- Net brace count contribution of one character, as in
`_extract_first_json_object` (`app/agents/workflow.py` lines 47-53). -/
def braceDelta (c : Char) : Int :=
  if c = '\x7b' then 1 else if c = '\x7d' then -1 else 0

/-- Running brace count over a character list. -/
def balanceChars (l : List Char) : Int :=
  (l.map braceDelta).sum

/-- Scanning loop of `_extract_first_json_object`
(`app/agents/workflow.py` lines 47-56): walk forward from the first brace
keeping a running count; on a closing brace that brings the count to zero,
return everything consumed so far. -/
def scanJson : List Char → Int → List Char → Option (List Char)
  | [], _, _ => none
  | c :: cs, k, acc =>
    if c = '\x7b' then scanJson cs (k + 1) (acc ++ [c])
    else if c = '\x7d' then
      if k - 1 = 0 then some (acc ++ [c]) else scanJson cs (k - 1) (acc ++ [c])
    else scanJson cs k (acc ++ [c])

/-- Core of `_extract_first_json_object` on character lists: drop everything
before the first opening brace, then scan for the first return to balance. -/
def extractListJson (l : List Char) : Option (List Char) :=
  match l.dropWhile (fun c => c ≠ '\x7b') with
  | [] => none
  | d => scanJson d 0 []

/-- Fallback JSON extraction `_extract_first_json_object` from
`app/agents/workflow.py` lines 38-56. -/
def _extract_first_json_object (text : String) : Option String :=
  (extractListJson text.toList).map String.mk

/-- The six required level-2 headings of `validate_module_markdown`
(`app/agents/module_writer.py` lines 53-60). -/
def required_headings : List String :=
  ["## Overview", "## Key concepts", "## Worked example",
   "## Practice exercises", "## Common mistakes", "## Suggested resources"]

/-- The exact heading that opens the practice section. -/
def practiceHeading : String := "## Practice exercises"

/-- Lines of the markdown, each stripped, as the validator iterates them
(`md.split('\n')` then `line.strip()`). -/
def strippedLines (md : String) : List String :=
  (splitOnChar '\n' md.toList).map (fun l => String.mk (stripList l))

/-- Python `line and (line[0].isdigit() or line.startswith('-'))` on an
already-stripped line. -/
def practiceItem (l : String) : Bool :=
  (!l.isEmpty) && (l.front.isDigit || strStarts l "-")

/-- Python `line and line[0].isdigit()` on an already-stripped line. -/
def digitItem (l : String) : Bool :=
  (!l.isEmpty) && l.front.isDigit

/-- The scanning loop of `validate_module_markdown`
(`app/agents/module_writer.py` lines 67-74): returns the collected
`found_headings` and `practice_exercises_content`, given the current
`in_practice_section` flag. -/
def collectModule : List String → Bool → List String × List String
  | [], _ => ([], [])
  | l :: ls, inP =>
    if strStarts l "## " then
      let r := collectModule ls (decide (l = practiceHeading))
      (l :: r.1, r.2)
    else if inP && practiceItem l then
      let r := collectModule ls inP
      (r.1, l :: r.2)
    else collectModule ls inP

/-- Structured form of the `ValueError` raised by `validate_module_markdown`:
either the heading-structure error with its missing and extra sets, or the
practice-exercise count error with the count found. -/
inductive ModuleError where
  | headings (missing extra : List String)
  | practiceCount (found : Nat)
deriving Repr, DecidableEq

/-- Module-content validator `validate_module_markdown` from
`app/agents/module_writer.py` lines 51-90. Returns `none` on acceptance.
The Python `missing`/`extra` sets are modelled as duplicate-free lists in
the deterministic order induced by `required_headings` resp. the text. -/
def validate_module_markdown (md : String) : Option ModuleError :=
  let fp := collectModule (strippedLines md) false
  if fp.1 = required_headings then
    let numbered := fp.2.filter digitItem
    if numbered.length = 3 then none
    else some (ModuleError.practiceCount numbered.length)
  else
    some (ModuleError.headings
      (required_headings.filter (fun h => decide (h ∉ fp.1)))
      ((fp.1.dedup).filter (fun h => decide (h ∉ required_headings))))

/-- Rendering of the `ValueError` message text (`str(e)`), with the Python
set display of `missing`/`extra` abstracted to the canonical list order and
without the repr quoting. -/
def renderModuleError : ModuleError → String
  | ModuleError.headings missing extra =>
    "Invalid headings structure" ++
      (if missing.isEmpty then "" else
        ". Missing: \x7b" ++ String.intercalate ", " missing ++ "\x7d") ++
      (if extra.isEmpty then "" else
        ". Extra: \x7b" ++ String.intercalate ", " extra ++ "\x7d")
  | ModuleError.practiceCount n =>
    "Practice exercises must have exactly 3 numbered items, found " ++ toString n

/-- Level-2 heading lines of a markdown text: its stripped lines that start
with `## `, in order. (Declarative restatement of `found_headings`.) -/
def h2Lines (md : String) : List String :=
  (strippedLines md).filter (fun l => strStarts l "## ")

/-- The stripped content lines strictly between the (first)
`## Practice exercises` line and the next level-2 heading, per the spec's
description of the practice section. -/
def practiceSection (md : String) : List String :=
  (((strippedLines md).dropWhile (fun l => decide (l ≠ practiceHeading))).drop 1).takeWhile
    (fun l => !(strStarts l "## "))

/-- Number of practice-section lines that look numbered (start with a digit). -/
def practiceDigitCount (md : String) : Nat :=
  ((practiceSection md).filter digitItem).length

/-- Number of practice-section lines recognizably numbered or bulleted,
per the spec's wording. -/
def practiceRecognizableCount (md : String) : Nat :=
  ((practiceSection md).filter practiceItem).length

/-- SYSTEM_PLANNER from `app/agents/workflow.py` lines 10-14. -/
def SYSTEM_PLANNER : String :=
  "You are a curriculum planner.\n\nYou must return ONLY valid JSON (no markdown, no code fences, no commentary).\nThe JSON must match the given schema exactly.\n"

/-- build_planner_prompt from `app/agents/workflow.py` lines 17-35
(the f-string after `.strip()`; `\x7b\x7b` renders as a literal brace). -/
def build_planner_prompt (field level : String) (weekly_hours duration_weeks : Nat) : String :=
  "Create a " ++ toString duration_weeks ++ "-week learning roadmap for: " ++ field ++
  "\nLearner level: " ++ level ++
  "\nTime budget: " ++ toString weekly_hours ++ " hours/week\n\nOutput must be STRICT JSON matching this schema:\n\x7b\n  \"weeks\": [\n    \x7b\"week\": 1, \"title\": \"string\", \"outcomes\": [\"string\", \"string\"]\x7d\n  ]\n\x7d\n\nRules:\n- \"weeks\" must contain exactly " ++ toString duration_weeks ++
  " items.\n- Each week.week must be 1.." ++ toString duration_weeks ++
  " with no duplicates, in increasing order.\n- outcomes: 2-6 items per week, each short and specific.\n- Titles must be concise."

/-- Repair prompt built in the loop of `generate_roadmap_outline`
(`app/agents/workflow.py` lines 111-123), after the outer `.strip()`. -/
def repair_planner_prompt (base : String) (duration_weeks : Nat)
    (errText invalid : String) : String :=
  base ++ "\n\nPREVIOUS ATTEMPT FAILED:\nError: " ++ errText ++
  "\n\nInvalid output:\n" ++ invalid ++
  "\n\nReturn ONLY corrected JSON, no extra keys, no markdown.\nMust have exactly " ++
  toString duration_weeks ++ " weeks with numbers 1.." ++ toString duration_weeks ++
  ".\nEach week needs 2-6 outcomes and non-empty title."

/-- One recorded call to `llm.generate_text`; the temperature is in tenths. -/
structure GenCall where
  system : String
  user : String
  tempTenths : Nat
deriving Repr, DecidableEq

/-- Result of the outline engine: the returned outline or the terminal
`RuntimeError` message, together with all generator calls made. -/
structure EngineResult where
  result : Except String RoadmapOutline
  calls : List GenCall
deriving Repr

/-- Python `f"\x7blast_err\x7d"` on an optional error. -/
def renderLastErr : Option String → String
  | none => "None"
  | some e => e

/-- The `for attempt in range(1, 4)` loop of `generate_roadmap_outline`
(`app/agents/workflow.py` lines 86-125), parameterized by the pydantic
parser `parse` (modelling `RoadmapOutline.model_validate_json`, whose
errors carry the rendered `ValidationError` text) and the generator oracle
`gen`. `fuel` is the number of loop iterations left, `prompt` the current
user prompt, `idx` the index of the next generator call, `lastErr` the
current `last_err` and `calls` the calls made so far. All calls use
temperature 0.1 (recorded as 1). -/
def engineGo (parse : String → Except String RoadmapOutline) (gen : Nat → String)
    (dw : Nat) (base : String) :
    Nat → String → Nat → Option String → List GenCall → EngineResult
  | 0, _, _, lastErr, calls =>
    { result := Except.error
        ("Planner output did not validate after retries. Last error: " ++
          renderLastErr lastErr)
      calls := calls }
  | fuel + 1, prompt, idx, _, calls =>
    let raw := gen idx
    let calls' := calls ++ [{ system := SYSTEM_PLANNER, user := prompt, tempTenths := 1 }]
    let strict : Except String RoadmapOutline :=
      match parse raw with
      | Except.ok o =>
        match _validate_outline o dw with
        | none => Except.ok o
        | some e => Except.error e
      | Except.error pe => Except.error pe
    match strict with
    | Except.ok o => { result := Except.ok o, calls := calls' }
    | Except.error e1 =>
      let ext := _extract_first_json_object raw
      let second : Except String RoadmapOutline :=
        match ext with
        | some ej =>
          (match parse ej with
           | Except.ok o =>
             match _validate_outline o dw with
             | none => Except.ok o
             | some e => Except.error e
           | Except.error pe => Except.error pe)
        | none => Except.error e1
      match second with
      | Except.ok o => { result := Except.ok o, calls := calls' }
      | Except.error e2 =>
        let invalid := ext.getD raw
        engineGo parse gen dw base fuel
          (repair_planner_prompt base dw e2 invalid) (idx + 1) (some e2) calls'

/-- generate_roadmap_outline from `app/agents/workflow.py` lines 79-125. -/
def generate_roadmap_outline (parse : String → Except String RoadmapOutline)
    (gen : Nat → String) (field level : String)
    (weekly_hours duration_weeks : Nat) : EngineResult :=
  let base := build_planner_prompt field level weekly_hours duration_weeks
  engineGo parse gen duration_weeks base 3 base 0 none []

/-- SYSTEM_MODULE_WRITER from `app/agents/module_writer.py` lines 3-14. -/
def SYSTEM_MODULE_WRITER : String :=
  "You are an expert course author.\nWrite clear, structured Markdown only.\nNo JSON. No code fences unless showing actual code examples.\nOutput must contain exactly these H2 headings in order:\n## Overview\n## Key concepts\n## Worked example\n## Practice exercises\n## Common mistakes\n## Suggested resources\nNo other top-level headings (# or ##) allowed.\n"

/-- programming_keywords from `build_module_prompt`. -/
def programming_keywords : List String :=
  ["python", "ml", "machine learning", "data", "pandas", "numpy",
   "deep learning", "nlp"]

/-- build_module_prompt from `app/agents/module_writer.py` lines 16-49
(the f-string after `.strip()`). -/
def build_module_prompt (field level : String) (week : Nat) (title : String)
    (outcomes : List String) : String :=
  let outcomes_text := String.intercalate "\n" (outcomes.map (fun o => "- " ++ o))
  let is_programming_field :=
    programming_keywords.any (fun k => strContains (pyLower field) k)
  let worked_example_guidance :=
    if is_programming_field then "Worked example (with Python code)"
    else "Worked example (code OR step-by-step walkthrough)"
  "Course topic: " ++ field ++ "\nLearner level: " ++ level ++
  "\n\nWeek " ++ toString week ++ " title: " ++ title ++
  "\nOutcomes:\n" ++ outcomes_text ++
  "\n\nWrite a markdown lesson with these EXACT headings (use H2 ## format):\n## Overview\n## Key concepts\n## " ++
  worked_example_guidance ++
  "\n## Practice exercises (exactly 3 numbered items)\n## Common mistakes\n## Suggested resources\n\nRequirements:\n- Output must be Markdown only\n- Use exactly these 6 headings in this order\n- No additional top-level headings\n- Practice exercises section must have exactly 3 numbered items\n- Keep content practical and concise"

/-- Repair prompt of `write_module_markdown`
(`app/agents/module_writer.py` lines 107-117), after the outer `.strip()`. -/
def repair_module_prompt (prompt errText invalid : String) : String :=
  prompt ++ "\n\nPREVIOUS ATTEMPT FAILED:\nError: " ++ errText ++
  "\n\nInvalid markdown:\n" ++ invalid ++
  "\n\nReturn corrected markdown only. Fix the structure errors while preserving content quality."

/-- Result of the module writer: the final markdown or the terminal
`RuntimeError` message, with all generator calls made. -/
structure WriterResult where
  result : Except String String
  calls : List GenCall
deriving Repr

/-- write_module_markdown from `app/agents/module_writer.py` lines 92-126:
primary generation at temperature 0.2, at most one repair round at 0.1,
then a terminal `RuntimeError`. -/
def write_module_markdown (gen : Nat → String) (field level : String)
    (week : Nat) (title : String) (outcomes : List String) : WriterResult :=
  let prompt := build_module_prompt field level week title outcomes
  let markdown := pyStrip (gen 0)
  let calls0 := [{ system := SYSTEM_MODULE_WRITER, user := prompt, tempTenths := 2 : GenCall }]
  match validate_module_markdown markdown with
  | none => { result := Except.ok markdown, calls := calls0 }
  | some e =>
    let rp := repair_module_prompt prompt (renderModuleError e) markdown
    let repaired := pyStrip (gen 1)
    let calls1 := calls0 ++ [{ system := SYSTEM_MODULE_WRITER, user := rp, tempTenths := 1 }]
    match validate_module_markdown repaired with
    | none => { result := Except.ok repaired, calls := calls1 }
    | some fe =>
      { result := Except.error
          ("Module markdown validation failed after repair: " ++ renderModuleError fe)
        calls := calls1 }

/-- A `GenerationRun` row, restricted to the fields the core reads and
writes (`app/db/models/generation_run.py`). The `started_at`/`finished_at`
timestamps are modelled as booleans recording whether they were ever set;
`result_json` stores the serialized outline payload abstractly. -/
structure RunRecord where
  status : String
  progress : Int
  message : Option String
  error : Option String
  resultJson : Option RoadmapOutline
  startedAt : Bool
  finishedAt : Bool
  courseId : Option Nat
  roadmapId : Nat
deriving Repr, DecidableEq

/-- Keyword arguments of `update_run` (`app/jobs/tasks.py` lines 86-96). -/
structure UpdateArgs where
  status : Option String := none
  progress : Option Int := none
  message : Option String := none
  error : Option String := none
  result : Option RoadmapOutline := none
  started : Bool := false
  finished : Bool := false

/-- update_run from `app/jobs/tasks.py` lines 86-126: partial-field update,
applying exactly the non-`None` arguments, committed immediately. -/
def update_run (r : RunRecord) (a : UpdateArgs) : RunRecord :=
  { r with
    status := a.status.getD r.status
    progress := a.progress.getD r.progress
    message := match a.message with | some m => some m | none => r.message
    error := match a.error with | some e => some e | none => r.error
    resultJson := match a.result with | some j => some j | none => r.resultJson
    startedAt := if a.started then true else r.startedAt
    finishedAt := if a.finished then true else r.finishedAt }

/-- The unconditional update the worker loop performs as soon as it picks a
delivered message up, before dispatching to any handler
(`app/jobs/tasks.py` line 358). -/
def workerPickupUpdate (r : RunRecord) : RunRecord :=
  update_run r
    { status := some "running"
      progress := some 1
      message := some "Worker picked up job"
      started := true }

/-- MAX_RETRIES from `app/jobs/tasks.py` line 35. -/
def MAX_RETRIES : Nat := 3

/-- The retry-accounting update the worker loop performs in its exception
handler before deciding whether to requeue (`app/jobs/tasks.py`
lines 396-400); `attempt` is the already-incremented attempt and `e` the
rendered exception text. -/
def workerRetryUpdate (attempt : Nat) (e : String) (r : RunRecord) : RunRecord :=
  update_run r
    { status := some "running"
      message := some ("Retry " ++ toString attempt ++ "/" ++ toString MAX_RETRIES ++
        " after error: " ++ e) }

/-- A `Roadmap` row, restricted to the fields the outline handler reads. -/
structure RoadmapRec where
  title : String
  field : String
  level : String
  weeklyHours : Nat
  durationWeeks : Nat
deriving Repr, DecidableEq

/-- A `Course` row as created by the outline handler. -/
structure CourseRec where
  id : Nat
  status : String
  title : String
  description : String
deriving Repr, DecidableEq

/-- A `CourseModule` row; `outcomes` abstracts the `outcomes_json` string. -/
structure ModuleRec where
  courseId : Nat
  week : Nat
  title : String
  outcomes : List String
  contentMd : Option String
deriving Repr, DecidableEq

/-- Database state seen by the outline handler: the run the job references,
the roadmap lookup result, and the course/module tables. `nextId` models
primary-key allocation for the created course. -/
structure OutlineWorld where
  run : Option RunRecord
  roadmap : Option RoadmapRec
  courses : List CourseRec
  modules : List ModuleRec
  nextId : Nat
deriving Repr, DecidableEq

/-- Python-level outcome of `generate_roadmap_outline_sync`: a skipped
no-op, an error return, a success return carrying the course id, or a
re-raised exception. -/
inductive SyncResult where
  | skipped (status : String)
  | errResult (msg : String)
  | okResult (courseId : Nat)
  | raised (msg : String)
deriving Repr, DecidableEq

/-- generate_roadmap_outline_sync from `app/jobs/tasks.py` lines 132-221,
with the call to the outline engine abstracted by its outcome `genResult`
(`Except.error e` carries the rendered `f"TypeName: message"` text of the
raised exception). Returns the final database state, the Python-level
result, and the list of run-record states committed, in commit order. -/
def generate_roadmap_outline_sync (w : OutlineWorld)
    (genResult : Except String RoadmapOutline) :
    OutlineWorld × SyncResult × List RunRecord :=
  match w.run with
  | none => (w, SyncResult.errResult "run not found", [])
  | some run =>
    if run.status = "succeeded" ∨ run.status = "failed" then
      (w, SyncResult.skipped run.status, [])
    else if run.status = "running" then
      (w, SyncResult.skipped "running", [])
    else
      let r1 := { run with
        status := "running"
        progress := 5
        message := some "Starting outline generation"
        startedAt := true }
      match w.roadmap with
      | none =>
        let r2 := { r1 with
          status := "failed"
          error := some ("Roadmap not found for roadmap_id=" ++
            toString r1.roadmapId)
          finishedAt := true }
        ({ w with run := some r2 }, SyncResult.errResult "roadmap not found", [r1, r2])
      | some rm =>
        let r2 := { r1 with
          progress := 20
          message := some "Planning roadmap outline (LLM)" }
        match genResult with
        | Except.error e =>
          let rf := { r2 with
            status := "failed"
            error := some e
            finishedAt := true }
          ({ w with run := some rf }, SyncResult.raised e, [r1, r2, rf])
        | Except.ok outline =>
          let r3 := { r2 with
            progress := 60
            message := some "Creating course structure" }
          let cid := w.nextId
          let course : CourseRec :=
            { id := cid
              status := "draft"
              title := rm.title ++ " (AI-generated)"
              description := toString rm.durationWeeks ++ "-week roadmap for " ++
                rm.field ++ ", level " ++ rm.level ++ "." }
          let mods := outline.weeks.map (fun wk =>
            ({ courseId := cid
               week := wk.week
               title := wk.title
               outcomes := wk.outcomes
               contentMd := none } : ModuleRec))
          let r4 := { r3 with
            courseId := some cid
            progress := 85
            message := some "Saving outline + course structure"
            resultJson := some outline }
          let r5 := { r4 with
            status := "succeeded"
            progress := 100
            message := some "Done"
            finishedAt := true }
          ({ w with
             run := some r5
             courses := w.courses ++ [{ course with status := "ready" }]
             modules := w.modules ++ mods
             nextId := cid + 1 },
           SyncResult.okResult cid, [r1, r2, r3, r4, r5])

/-- One worker-loop iteration for a delivered outline job
(`app/jobs/tasks.py` lines 356-362): the unconditional pickup update
(status=running, progress=1) followed by the dispatch to
`generate_roadmap_outline_sync`. The queue bookkeeping is outside this
state. -/
def processOutlineDelivered (w : OutlineWorld)
    (genResult : Except String RoadmapOutline) :
    OutlineWorld × SyncResult × List RunRecord :=
  generate_roadmap_outline_sync
    { w with run := w.run.map workerPickupUpdate } genResult

/-- A queued task message; only the `attempt` counter varies across
redeliveries, the other envelope fields are constant for a given job. -/
structure TaskMsg where
  attempt : Nat
deriving Repr, DecidableEq

/-- Queue plus run state shared by the worker loop. `pending` and
`processing` are Redis lists with their heads at the Redis list head
(`LPUSH` prepends; `BRPOPLPUSH` pops from the tail). -/
structure WorkerState where
  pending : List TaskMsg
  processing : List TaskMsg
  run : RunRecord
deriving Repr, DecidableEq

/-- One iteration of `process_roadmap_generation_queue`
(`app/jobs/tasks.py` lines 332-416) in which the dispatched handler raises
an exception rendered as `e` (the transient-error scenario; the handler's
own `except` clause first marks the run failed, `app/jobs/tasks.py`
line 319, then re-raises). If the pending list is empty the blocking pop
times out and the iteration is a no-op. -/
def workerDeliveryFail (e : String) (s : WorkerState) : WorkerState :=
  match s.pending.getLast? with
  | none => s
  | some msg =>
    let pending' := s.pending.dropLast
    let processing' := msg :: s.processing
    let r0 := workerPickupUpdate s.run
    let r1 := update_run r0
      { status := some "failed"
        error := some e
        finished := true }
    let attempt := msg.attempt + 1
    let r2 := workerRetryUpdate attempt e r1
    if attempt ≤ MAX_RETRIES then
      { pending := { attempt := attempt } :: pending'
        processing := processing'.erase msg
        run := r2 }
    else
      { pending := pending'
        processing := processing'.erase msg
        run := update_run r2
          { status := some "failed"
            error := some ("Retries exhausted: " ++ e)
            finished := true } }

/-- A freshly created run as the request layer enqueues it
(`app/generation/routes.py` lines 34-40). -/
def queuedRun : RunRecord :=
  { status := "queued"
    progress := 0
    message := some "Queued"
    error := none
    resultJson := none
    startedAt := false
    finishedAt := false
    courseId := none
    roadmapId := 7 }

/-- A run that already finished successfully. -/
def succeededRun : RunRecord :=
  { queuedRun with status := "succeeded", progress := 100, finishedAt := true }

/-- A run that already finished unsuccessfully. -/
def failedRun : RunRecord :=
  { queuedRun with status := "failed", finishedAt := true }

/-- A run mid-processing: running with committed progress 20 (the state left
by the outline handler right before the generation call). -/
def runningRun20 : RunRecord :=
  { queuedRun with status := "running", progress := 20, startedAt := true }

/-- A concrete roadmap row. -/
def rmEx : RoadmapRec :=
  { title := "Rust", field := "Rust", level := "beginner"
    weeklyHours := 5, durationWeeks := 4 }

/-- World with a queued run and an existing roadmap. -/
def wQueued : OutlineWorld :=
  { run := some queuedRun, roadmap := some rmEx
    courses := [], modules := [], nextId := 1 }

/-- World whose run already succeeded. -/
def wSucceeded : OutlineWorld :=
  { wQueued with run := some succeededRun }

/-- The queue state after the worker handles the same always-failing message
four times in a row, starting from one pending message with attempt 0. -/
def retryScenario (e0 e1 e2 e3 : String) : WorkerState :=
  workerDeliveryFail e3 (workerDeliveryFail e2 (workerDeliveryFail e1
    (workerDeliveryFail e0
      { pending := [{ attempt := 0 }], processing := [], run := queuedRun })))

/-- A concrete outline with 4 correctly numbered weeks. -/
def outlineEx : RoadmapOutline :=
  { weeks :=
      [ { week := 1, title := "Basics", outcomes := ["read code", "run code"] }
      , { week := 2, title := "Ownership", outcomes := ["explain moves", "use borrows"] }
      , { week := 3, title := "Traits", outcomes := ["define traits", "use generics"] }
      , { week := 4, title := "Project", outcomes := ["plan project", "ship project"] } ] }

/-- The spec's JSON-extraction example input. -/
def jsonNoiseExample : String :=
  "noise\x7b\"a\":\x7b\"b\":1\x7d\x7dtail\x7b\"c\":2\x7d"

/-- The first balanced top-level object inside `jsonNoiseExample`. -/
def jsonFirstObject : String :=
  "\x7b\"a\":\x7b\"b\":1\x7d\x7d"

/-- Text whose only brace is opened and never closed. -/
def jsonUnbalanced : String := "prefix \x7b\"a\": [1, 2"

/-- Markdown with an extra level-1 heading plus the six required level-2
headings and three numbered practice items. -/
def mdRogue : String :=
  "# Rogue heading\n## Overview\ntext\n## Key concepts\ntext\n## Worked example\ntext\n## Practice exercises\n1. one\n2. two\n3. three\n## Common mistakes\ntext\n## Suggested resources\ntext"

/-- Markdown with the six required headings whose practice section holds
three numbered items and one extra bulleted item. -/
def mdExtraBullet : String :=
  "## Overview\ntext\n## Key concepts\ntext\n## Worked example\ntext\n## Practice exercises\n1. one\n2. two\n3. three\n- bonus reading\n## Common mistakes\ntext\n## Suggested resources\ntext"

/-- Markdown with the six required headings but only two numbered practice
items. -/
def mdTwoItems : String :=
  "## Overview\ntext\n## Key concepts\ntext\n## Worked example\ntext\n## Practice exercises\n1. one\n2. two\n## Common mistakes\ntext\n## Suggested resources\ntext"

/-- Markdown lacking the `## Common mistakes` heading. -/
def mdMissingCommon : String :=
  "## Overview\ntext\n## Key concepts\ntext\n## Worked example\ntext\n## Practice exercises\n1. one\n2. two\n3. three\n## Suggested resources\ntext"

/-- The outline engine run against a parser that rejects the generator's
constant output `hello` (as `RoadmapOutline.model_validate_json` does on
non-JSON text). -/
def c4CounterEngine : EngineResult :=
  generate_roadmap_outline (fun _ => Except.error "ValidationError: invalid JSON")
    (fun _ => "hello") "Data Science" "beginner" 5 12

theorem checkOutcomes_eq_none_iff (wk : Nat) (ss : List String) :
    checkOutcomes wk ss = none ↔ ∀ s ∈ ss, pyStrip s ≠ "" := by
  induction ss with
  | nil => simp [checkOutcomes]
  | cons s ss ih =>
    by_cases h : pyStrip s = "" <;> simp [checkOutcomes, h, ih]

theorem checkWeek_eq_none_iff (w : WeekPlan) :
    checkWeek w = none ↔
      (pyStrip w.title ≠ "" ∧ (2 ≤ w.outcomes.length ∧ w.outcomes.length ≤ 6) ∧
        ∀ s ∈ w.outcomes, pyStrip s ≠ "") := by
  unfold checkWeek
  by_cases h1 : pyStrip w.title = ""
  · simp [h1]
  · by_cases h2 : w.outcomes.length < 2 ∨ 6 < w.outcomes.length
    · simp [h1, h2]
      omega
    · have h3 : 2 ≤ w.outcomes.length ∧ w.outcomes.length ≤ 6 := by omega
      simp [h1, h2, h3, checkOutcomes_eq_none_iff]

theorem checkWeeks_eq_none_iff (ws : List WeekPlan) :
    checkWeeks ws = none ↔
      ∀ w ∈ ws, (pyStrip w.title ≠ "" ∧ (2 ≤ w.outcomes.length ∧ w.outcomes.length ≤ 6) ∧
        ∀ s ∈ w.outcomes, pyStrip s ≠ "") := by
  induction ws with
  | nil => simp [checkWeeks]
  | cons w ws ih =>
    constructor
    · intro h x hx
      rcases hw : checkWeek w with _ | e
      · have hws : checkWeeks ws = none := by
          simp only [checkWeeks, hw] at h; exact h
        rcases List.mem_cons.mp hx with rfl | hxs
        · exact (checkWeek_eq_none_iff x).mp hw
        · exact (ih.mp hws) x hxs
      · simp only [checkWeeks, hw] at h
        exact absurd h (Option.some_ne_none e)
    · intro h
      have hw : checkWeek w = none := (checkWeek_eq_none_iff w).mpr (h w (by simp))
      simp only [checkWeeks, hw]
      exact ih.mpr (fun x hx => h x (List.mem_cons_of_mem w hx))

/-- Claim C5: for every requested duration N in [4,52], the outline
validator accepts a candidate outline if and only if it has exactly N week
entries whose week numbers are exactly 1..N strictly increasing, each title
non-empty after trimming, and each week 2 to 6 outcome strings that are
non-empty (after trimming, as the code and the title clause of the spec
read non-empty); any gap, duplicate, or out-of-range week number falsifies
the right-hand side and is therefore rejected. -/
theorem c5_outline_validator_iff (n : Nat) (o : RoadmapOutline)
    (_hlo : 4 ≤ n) (_hhi : n ≤ 52) :
    _validate_outline o n = none ↔ outlineSpecOk o n := by
  unfold _validate_outline outlineSpecOk
  by_cases h1 : o.weeks.length = n
  · by_cases h2 : o.weeks.map WeekPlan.week = List.range' 1 n
    · simp [h1, h2, checkWeeks_eq_none_iff]
    · simp [h1, h2]
  · simp [h1]

/-- Claim C5 witness: the equivalence applied to a concrete 4-week outline,
whose acceptance by `_validate_outline` follows from the spec-side
predicate. -/
theorem c5_outline_validator_iff_witness :
    _validate_outline outlineEx 4 = none :=
  (c5_outline_validator_iff 4 outlineEx (by decide) (by decide)).mpr (by decide)

theorem balanceChars_cons (c : Char) (l : List Char) :
    balanceChars (c :: l) = braceDelta c + balanceChars l := by
  simp [balanceChars]

theorem dropWhile_head_false {α : Type} {p : α → Bool} {l : List α} {c : α}
    {cs : List α} (h : l.dropWhile p = c :: cs) : p c = false := by
  induction l with
  | nil => simp at h
  | cons a l' ih =>
    by_cases hpa : p a
    · rw [List.dropWhile_cons_of_pos hpa] at h
      exact ih h
    · rw [List.dropWhile_cons_of_neg hpa] at h
      injection h with h1 h2
      rw [← h1]
      exact Bool.eq_false_iff.mpr hpa

theorem scanJson_sound (l : List Char) : ∀ (k : Int) (acc out : List Char),
    1 ≤ k → scanJson l k acc = some out →
    ∃ u v, l = u ++ v ∧ u ≠ [] ∧ out = acc ++ u ∧ k + balanceChars u = 0 ∧
      ∀ p q, p ++ q = u → p ≠ [] → q ≠ [] → k + balanceChars p ≠ 0 := by
  induction l with
  | nil => intro k acc out _ h; simp [scanJson] at h
  | cons c cs ih =>
    intro k acc out hk h
    by_cases h1 : c = '\x7b'
    · subst h1
      rw [scanJson, if_pos rfl] at h
      obtain ⟨u', v, hcs, hu, hout, hbal, hpre⟩ :=
        ih (k + 1) (acc ++ ['\x7b']) out (by omega) h
      refine ⟨'\x7b' :: u', v, by simp [hcs], by simp, ?_, ?_, ?_⟩
      · rw [hout, List.append_assoc]
        simp
      · rw [balanceChars_cons]
        have hd : braceDelta '\x7b' = 1 := rfl
        rw [hd]
        omega
      · intro p q hpq hp hq
        cases p with
        | nil => exact absurd rfl hp
        | cons d p' =>
          rw [List.cons_append] at hpq
          injection hpq with hd1 hpq'
          subst hd1
          rw [balanceChars_cons]
          have hd : braceDelta '\x7b' = (1 : Int) := rfl
          rw [hd]
          by_cases hp' : p' = []
          · subst hp'
            have hz : balanceChars ([] : List Char) = 0 := rfl
            rw [hz]
            omega
          · have := hpre p' q hpq' hp' hq
            omega
    · by_cases h2 : c = '\x7d'
      · subst h2
        rw [scanJson, if_neg h1, if_pos rfl] at h
        by_cases h3 : k - 1 = 0
        · rw [if_pos h3] at h
          have hout : out = acc ++ ['\x7d'] := by injection h with hh; exact hh.symm
          refine ⟨['\x7d'], cs, rfl, by simp, hout, ?_, ?_⟩
          · have hb : balanceChars ['\x7d'] = -1 := rfl
            rw [hb]
            omega
          · intro p q hpq hp hq
            have hlen := congrArg List.length hpq
            simp at hlen
            have hpl : 0 < p.length := List.length_pos.mpr hp
            have hql : 0 < q.length := List.length_pos.mpr hq
            omega
        · rw [if_neg h3] at h
          obtain ⟨u', v, hcs, hu, hout, hbal, hpre⟩ :=
            ih (k - 1) (acc ++ ['\x7d']) out (by omega) h
          refine ⟨'\x7d' :: u', v, by simp [hcs], by simp, ?_, ?_, ?_⟩
          · rw [hout, List.append_assoc]
            simp
          · rw [balanceChars_cons]
            have hd : braceDelta '\x7d' = (-1 : Int) := rfl
            rw [hd]
            omega
          · intro p q hpq hp hq
            cases p with
            | nil => exact absurd rfl hp
            | cons d p' =>
              rw [List.cons_append] at hpq
              have hd1 := (List.cons.injEq .. |>.mp hpq).1
              have hpq' := (List.cons.injEq .. |>.mp hpq).2
              subst hd1
              rw [balanceChars_cons]
              have hd : braceDelta '\x7d' = (-1 : Int) := rfl
              rw [hd]
              by_cases hp' : p' = []
              · subst hp'
                have hz : balanceChars ([] : List Char) = 0 := rfl
                rw [hz]
                omega
              · have := hpre p' q hpq' hp' hq
                omega
      · rw [scanJson, if_neg h1, if_neg h2] at h
        obtain ⟨u', v, hcs, hu, hout, hbal, hpre⟩ :=
          ih k (acc ++ [c]) out hk h
        have hd : braceDelta c = 0 := by simp [braceDelta, h1, h2]
        refine ⟨c :: u', v, by simp [hcs], by simp, ?_, ?_, ?_⟩
        · rw [hout, List.append_assoc]
          simp
        · rw [balanceChars_cons, hd]
          omega
        · intro p q hpq hp hq
          cases p with
          | nil => exact absurd rfl hp
          | cons d p' =>
            rw [List.cons_append] at hpq
            injection hpq with hd1 hpq'
            subst hd1
            rw [balanceChars_cons, hd]
            by_cases hp' : p' = []
            · subst hp'
              have hz : balanceChars ([] : List Char) = 0 := rfl
              rw [hz]
              omega
            · have := hpre p' q hpq' hp' hq
              omega

/-- Claim C8: the JSON fallback extraction scans for the first opening
brace, counts opening braces as +1 and closing braces as -1 from there, and
returns the substring ending at the first point the count returns to 0.  On
the spec's example input it returns the first balanced top-level object
(not the second object and not a partial substring); it returns none when
no balanced object exists (no brace at all, or a brace never closed), and
every successful extraction is characterized: the text splits as
`pre ++ s ++ rest` where `pre` has no opening brace, `s` starts with an
opening brace, has total count 0, and no proper non-empty prefix of `s` has
count 0 (so `s` ends at the first return to 0). -/
theorem c8_first_json_extraction :
    _extract_first_json_object jsonNoiseExample = some jsonFirstObject
    ∧ _extract_first_json_object "no json here" = none
    ∧ _extract_first_json_object jsonUnbalanced = none
    ∧ ∀ (t s : String), _extract_first_json_object t = some s →
        ∃ pre rest, t.toList = pre ++ s.toList ++ rest ∧
          (∀ c ∈ pre, c ≠ '\x7b') ∧
          s.toList.head? = some '\x7b' ∧
          balanceChars s.toList = 0 ∧
          ∀ p q, p ++ q = s.toList → p ≠ [] → q ≠ [] → balanceChars p ≠ 0 := by
  refine ⟨by decide, by decide, by decide, ?_⟩
  intro t s h
  unfold _extract_first_json_object at h
  obtain ⟨cl, hcl, hmk⟩ := Option.map_eq_some'.mp h
  subst hmk
  unfold extractListJson at hcl
  rcases hd : t.toList.dropWhile (fun c => decide (c ≠ '\x7b')) with _ | ⟨c, cs⟩
  · rw [hd] at hcl
    simp at hcl
  · rw [hd] at hcl
    replace hcl : scanJson (c :: cs) 0 [] = some cl := hcl
    have hc : c = '\x7b' := by
      have hfalse := dropWhile_head_false hd
      simpa using hfalse
    subst hc
    rw [scanJson, if_pos rfl] at hcl
    obtain ⟨u, v, hcs, hu, hout, hbal, hpre⟩ :=
      scanJson_sound cs 1 ([] ++ ['\x7b']) cl (by norm_num) hcl
    have hcl2 : cl = '\x7b' :: u := by simpa using hout
    have hslist : (String.mk cl).toList = cl := rfl
    refine ⟨t.toList.takeWhile (fun c => decide (c ≠ '\x7b')), v, ?_, ?_, ?_, ?_, ?_⟩
    · conv_lhs =>
        rw [← List.takeWhile_append_dropWhile (fun c => decide (c ≠ '\x7b')) t.toList]
      rw [hd, hcs, hslist, hcl2]
      simp
    · intro ch hch
      have := List.mem_takeWhile_imp hch
      simpa using this
    · rw [hslist, hcl2]
      rfl
    · rw [hslist, hcl2, balanceChars_cons]
      have hd1 : braceDelta '\x7b' = 1 := rfl
      rw [hd1]
      omega
    · intro p q hpq hp hq
      rw [hslist, hcl2] at hpq
      cases p with
      | nil => exact absurd rfl hp
      | cons d p' =>
        rw [List.cons_append] at hpq
        injection hpq with hd1 hpq'
        subst hd1
        rw [balanceChars_cons]
        have hd1 : braceDelta '\x7b' = (1 : Int) := rfl
        rw [hd1]
        by_cases hp' : p' = []
        · subst hp'
          have hz : balanceChars ([] : List Char) = 0 := rfl
          rw [hz]
          omega
        · have := hpre p' q hpq' hp' hq
          omega

/-- Claim C8 witness: the characterization applied to the spec's example,
with the extraction hypothesis evaluated by decide. -/
theorem c8_first_json_extraction_witness :
    ∃ pre rest, jsonNoiseExample.toList = pre ++ jsonFirstObject.toList ++ rest ∧
      (∀ c ∈ pre, c ≠ '\x7b') ∧
      jsonFirstObject.toList.head? = some '\x7b' ∧
      balanceChars jsonFirstObject.toList = 0 ∧
      ∀ p q, p ++ q = jsonFirstObject.toList → p ≠ [] → q ≠ [] →
        balanceChars p ≠ 0 :=
  c8_first_json_extraction.2.2.2 jsonNoiseExample jsonFirstObject (by decide)

theorem collectModule_fst (lines : List String) (b : Bool) :
    (collectModule lines b).1 = lines.filter (fun l => strStarts l "## ") := by
  induction lines generalizing b with
  | nil => simp [collectModule]
  | cons l ls ih =>
    by_cases h2 : strStarts l "## "
    · simp [collectModule, h2, ih]
    · by_cases hp : b && practiceItem l
      · simp [collectModule, h2, hp, ih]
      · simp [collectModule, h2, hp, ih]

theorem collectModule_snd_no_heading (lines : List String)
    (h : practiceHeading ∉ lines) : (collectModule lines false).2 = [] := by
  induction lines with
  | nil => simp [collectModule]
  | cons l ls ih =>
    have hl : l ≠ practiceHeading := fun he => h (he ▸ List.mem_cons_self l ls)
    have hls : practiceHeading ∉ ls := fun hm => h (List.mem_cons_of_mem l hm)
    by_cases h2 : strStarts l "## "
    · simp [collectModule, h2, hl, ih hls]
    · simp [collectModule, h2, ih hls]

theorem collectModule_snd_after (rest : List String)
    (h : practiceHeading ∉ rest) :
    (collectModule rest true).2 =
      (rest.takeWhile (fun l => !(strStarts l "## "))).filter practiceItem := by
  induction rest with
  | nil => simp [collectModule]
  | cons l ls ih =>
    have hl : l ≠ practiceHeading := fun he => h (he ▸ List.mem_cons_self l ls)
    have hls : practiceHeading ∉ ls := fun hm => h (List.mem_cons_of_mem l hm)
    by_cases h2 : strStarts l "## "
    · simp [collectModule, h2, hl, collectModule_snd_no_heading ls hls,
        List.takeWhile_cons]
    · by_cases hp : practiceItem l
      · simp [collectModule, h2, hp, ih hls, List.takeWhile_cons, List.filter_cons]
      · simp [collectModule, h2, hp, ih hls, List.takeWhile_cons, List.filter_cons]

theorem collectModule_snd_split (pre rest : List String)
    (h : practiceHeading ∉ pre) :
    (collectModule (pre ++ practiceHeading :: rest) false).2 =
      (collectModule rest true).2 := by
  induction pre with
  | nil =>
    have hh : strStarts practiceHeading "## " = true := by decide
    simp [collectModule, hh]
  | cons l pre ih =>
    have hl : l ≠ practiceHeading := fun he => h (he ▸ List.mem_cons_self l pre)
    have hpre : practiceHeading ∉ pre := fun hm => h (List.mem_cons_of_mem l hm)
    by_cases h2 : strStarts l "## "
    · simp [collectModule, h2, hl, ih hpre]
    · simp [collectModule, h2, ih hpre]

theorem h2Lines_eq_filter (md : String) :
    h2Lines md = (strippedLines md).filter (fun l => strStarts l "## ") := rfl

theorem h2_once_split (md : String) (h : h2Lines md = required_headings) :
    ∃ pre rest, strippedLines md = pre ++ practiceHeading :: rest ∧
      practiceHeading ∉ pre ∧ practiceHeading ∉ rest := by
  have hcount : (strippedLines md).count practiceHeading = 1 := by
    have h1 : (h2Lines md).count practiceHeading = 1 := by rw [h]; decide
    rw [h2Lines_eq_filter] at h1
    rwa [List.count_filter (by decide)] at h1
  have hmem : practiceHeading ∈ strippedLines md := by
    have : 0 < (strippedLines md).count practiceHeading := by omega
    exact List.count_pos_iff.mp this
  obtain ⟨pre, rest, hsplit⟩ := List.append_of_mem hmem
  refine ⟨pre, rest, hsplit, ?_, ?_⟩
  · rw [hsplit, List.count_append, List.count_cons_self] at hcount
    exact List.count_eq_zero.mp (by omega)
  · rw [hsplit, List.count_append, List.count_cons_self] at hcount
    have : (rest.count practiceHeading) = 0 := by omega
    exact List.count_eq_zero.mp this

theorem dropWhile_neq_split (pre rest : List String)
    (h : practiceHeading ∉ pre) :
    (pre ++ practiceHeading :: rest).dropWhile
        (fun l => decide (l ≠ practiceHeading)) = practiceHeading :: rest := by
  induction pre with
  | nil =>
    rw [List.nil_append, List.dropWhile_cons_of_neg (by simp)]
  | cons l pre ih =>
    have hl : l ≠ practiceHeading := fun he => h (he ▸ List.mem_cons_self l pre)
    have hpre : practiceHeading ∉ pre := fun hm => h (List.mem_cons_of_mem l hm)
    rw [List.cons_append, List.dropWhile_cons_of_pos (by simp [hl])]
    exact ih hpre

theorem collect_practice_eq (md : String) (h : h2Lines md = required_headings) :
    (collectModule (strippedLines md) false).2 =
      (practiceSection md).filter practiceItem := by
  obtain ⟨pre, rest, hsplit, hpre, hrest⟩ := h2_once_split md h
  rw [hsplit, collectModule_snd_split pre rest hpre,
    collectModule_snd_after rest hrest]
  unfold practiceSection
  rw [hsplit, dropWhile_neq_split pre rest hpre]
  simp

theorem practiceItem_of_digitItem (l : String) (h : digitItem l = true) :
    practiceItem l = true := by
  unfold digitItem at h
  unfold practiceItem
  rcases Bool.and_eq_true _ _ |>.mp h with ⟨h1, h2⟩
  simp [h1, h2]

theorem filter_digit_of_practice (l : List String) :
    (l.filter practiceItem).filter digitItem = l.filter digitItem := by
  induction l with
  | nil => simp
  | cons x l ih =>
    by_cases hd : digitItem x
    · have hp : practiceItem x := practiceItem_of_digitItem x hd
      simp [List.filter_cons, hd, hp, ih]
    · by_cases hp : practiceItem x <;> simp [List.filter_cons, hd, hp, ih]

/-- Claim C6 counterexample: the validator accepts `mdRogue` although it
contains the extra level-1 heading `# Rogue heading`, so acceptance does
not require the absence of other level-1 headings as the claim states. -/
theorem c6_counterexample :
    validate_module_markdown mdRogue = none ∧
    "# Rogue heading" ∈ strippedLines mdRogue ∧
    strStarts "# Rogue heading" "# " = true ∧
    strStarts "# Rogue heading" "## " = false := by
  refine ⟨by decide, by decide, by decide, by decide⟩

/-- Claim C6 (amended): the module-content validator accepts a text only if
its level-2 heading lines (stripped lines starting with `## `) are exactly
the six required headings in this exact order and wording — so no other
level-2 heading may be present, while level-1 headings are not inspected —
and when a required heading such as `## Common mistakes` is absent, the
rejection cites that heading among the missing ones. -/
theorem c6_h2_headings_only :
    (∀ md, validate_module_markdown md = none → h2Lines md = required_headings) ∧
    (∀ md, "## Common mistakes" ∉ h2Lines md →
      ∃ miss extra,
        validate_module_markdown md = some (ModuleError.headings miss extra) ∧
        "## Common mistakes" ∈ miss) := by
  constructor
  · intro md hv
    by_contra hne
    have hfst : (collectModule (strippedLines md) false).1 = h2Lines md :=
      collectModule_fst (strippedLines md) false
    have hf : ¬ ((collectModule (strippedLines md) false).1 = required_headings) := by
      rw [hfst]; exact hne
    simp only [validate_module_markdown] at hv
    rw [if_neg hf] at hv
    exact absurd hv (Option.some_ne_none _)
  · intro md hcm
    have hmem : "## Common mistakes" ∈ required_headings := by decide
    have hfst : (collectModule (strippedLines md) false).1 = h2Lines md :=
      collectModule_fst (strippedLines md) false
    have hf : ¬ ((collectModule (strippedLines md) false).1 = required_headings) := by
      rw [hfst]
      intro he
      exact hcm (he ▸ hmem)
    refine ⟨required_headings.filter
        (fun x => decide (x ∉ (collectModule (strippedLines md) false).1)),
      ((collectModule (strippedLines md) false).1.dedup).filter
        (fun x => decide (x ∉ required_headings)), ?_, ?_⟩
    · simp only [validate_module_markdown]
      rw [if_neg hf]
    · rw [List.mem_filter]
      refine ⟨hmem, ?_⟩
      rw [hfst]
      exact decide_eq_true hcm

/-- Claim C6 witness: on markdown lacking `## Common mistakes`, the
validator rejects citing that heading among the missing set. -/
theorem c6_h2_headings_only_witness :
    ∃ miss extra,
      validate_module_markdown mdMissingCommon = some (ModuleError.headings miss extra) ∧
      "## Common mistakes" ∈ miss :=
  c6_h2_headings_only.2 mdMissingCommon (by decide)

/-- Claim C7 counterexample: the validator accepts `mdExtraBullet` although
its practice section contains 4 recognizably numbered-or-bulleted items
(3 numbered and 1 bulleted), so acceptance does not require exactly 3 such
items as the claim states: only the digit-initiated lines are counted. -/
theorem c7_counterexample :
    validate_module_markdown mdExtraBullet = none ∧
    practiceRecognizableCount mdExtraBullet = 4 := by
  refine ⟨by decide, by decide⟩

/-- Claim C7 (amended): for every text whose level-2 heading lines are the
six required headings, the validator accepts it if and only if the content
lines immediately following the `## Practice exercises` heading (until the
next level-2 heading) contain exactly 3 lines starting with a digit;
bulleted lines are collected but not counted toward the 3; any other
digit-line count is a validation failure whose error carries the count of
digit lines found. -/
theorem c7_numbered_only (md : String) (h : h2Lines md = required_headings) :
    (validate_module_markdown md = none ↔ practiceDigitCount md = 3) ∧
    (practiceDigitCount md ≠ 3 →
      validate_module_markdown md =
        some (ModuleError.practiceCount (practiceDigitCount md))) := by
  have hfst : (collectModule (strippedLines md) false).1 = h2Lines md :=
    collectModule_fst (strippedLines md) false
  have hf : (collectModule (strippedLines md) false).1 = required_headings := by
    rw [hfst]; exact h
  have hnum : ((collectModule (strippedLines md) false).2.filter digitItem).length
      = practiceDigitCount md := by
    rw [collect_practice_eq md h, filter_digit_of_practice]
    rfl
  simp only [validate_module_markdown]
  rw [if_pos hf, hnum]
  by_cases hc : practiceDigitCount md = 3
  · simp [hc]
  · simp [hc]

/-- Claim C7 witness: markdown with all six headings but only two numbered
practice items is rejected citing the count 2. -/
theorem c7_numbered_only_witness :
    validate_module_markdown mdTwoItems = some (ModuleError.practiceCount 2) := by
  have h := (c7_numbered_only mdTwoItems (by decide)).2 (by decide)
  have h2 : practiceDigitCount mdTwoItems = 2 := by decide
  rw [h2] at h
  exact h

/-- Claim C1 (code bug): succeeded/failed are not terminal under the
worker's operations. The handler start (`generate_roadmap_outline_sync`)
does preserve terminal states — it skips and changes nothing — but the
worker's unconditional pickup update (`app/jobs/tasks.py` line 358) sets a
succeeded run back to running when a message for it is (re)delivered, and
the retry-accounting update (lines 396-400) likewise sets a failed run back
to running. -/
theorem c1_terminal_status_not_preserved :
    ((workerPickupUpdate succeededRun).status = "running" ∧
      succeededRun.status = "succeeded") ∧
    (∀ (w : OutlineWorld) (r : RunRecord) (g : Except String RoadmapOutline),
      w.run = some r → (r.status = "succeeded" ∨ r.status = "failed") →
      generate_roadmap_outline_sync w g = (w, SyncResult.skipped r.status, [])) ∧
    ((workerRetryUpdate 1 "TransportError: timeout" failedRun).status = "running" ∧
      failedRun.status = "failed") := by
  refine ⟨⟨rfl, rfl⟩, ?_, ⟨rfl, rfl⟩⟩
  intro w r g hw hst
  simp only [generate_roadmap_outline_sync, hw]
  rw [if_pos hst]

/-- Claim C1 witness: the skip branch applied to a concrete world whose run
already succeeded. -/
theorem c1_terminal_status_not_preserved_witness :
    generate_roadmap_outline_sync wSucceeded (Except.error "E") =
      (wSucceeded, SyncResult.skipped "succeeded", []) :=
  c1_terminal_status_not_preserved.2.1 wSucceeded succeededRun
    (Except.error "E") rfl (Or.inl rfl)

/-- Claim C9 (code bug): progress is not monotone while status = running.
The worker's unconditional pickup update (`app/jobs/tasks.py` line 358)
writes progress = 1; on a redelivery (every queue retry) the run is already
running with committed progress 20, so this write decreases progress while
the status stays running. -/
theorem c9_progress_decreases_on_pickup :
    runningRun20.status = "running" ∧ runningRun20.progress = 20 ∧
    (workerPickupUpdate runningRun20).status = "running" ∧
    (workerPickupUpdate runningRun20).progress = 1 ∧
    (workerPickupUpdate runningRun20).progress < runningRun20.progress := by
  refine ⟨rfl, rfl, rfl, rfl, by decide⟩

/-- Claim C2 (code bug): for a delivered outline job whose run is neither
running nor terminal, the worker first unconditionally flips the run to
running with progress 1 (`app/jobs/tasks.py` line 358) and only then calls
`generate_roadmap_outline_sync`, whose in-progress guard (line 146) then
always fires: the handler returns skipped, no course or module is created,
and the run stays running at progress 1 instead of reaching succeeded.
The second conjunct shows the handler alone (as the spec describes it)
would write the checkpoints 5, 20, 60, 85, 100 in order, create one module
per week with content unset and one course linked to the run, and finish
succeeded — the worker's pickup update makes that path unreachable. -/
theorem c2_outline_job_always_skipped :
    (∀ (w : OutlineWorld) (r : RunRecord) (g : Except String RoadmapOutline),
      w.run = some r →
      r.status ≠ "succeeded" → r.status ≠ "failed" → r.status ≠ "running" →
      processOutlineDelivered w g =
        ({ w with run := some (workerPickupUpdate r) },
          SyncResult.skipped "running", []) ∧
      (workerPickupUpdate r).status = "running" ∧
      (workerPickupUpdate r).progress = 1) ∧
    (∀ (w : OutlineWorld) (r : RunRecord) (rm : RoadmapRec) (o : RoadmapOutline),
      w.run = some r →
      r.status ≠ "succeeded" → r.status ≠ "failed" → r.status ≠ "running" →
      w.roadmap = some rm →
      (generate_roadmap_outline_sync w (Except.ok o)).2.2.map RunRecord.progress
          = [5, 20, 60, 85, 100] ∧
      (generate_roadmap_outline_sync w (Except.ok o)).2.2.map RunRecord.status
          = ["running", "running", "running", "running", "succeeded"] ∧
      (generate_roadmap_outline_sync w (Except.ok o)).1.modules
          = w.modules ++ o.weeks.map (fun wk =>
              ({ courseId := w.nextId, week := wk.week, title := wk.title,
                 outcomes := wk.outcomes, contentMd := none } : ModuleRec)) ∧
      (generate_roadmap_outline_sync w (Except.ok o)).1.courses.length
          = w.courses.length + 1 ∧
      ((generate_roadmap_outline_sync w (Except.ok o)).1.run.bind RunRecord.courseId)
          = some w.nextId ∧
      ((generate_roadmap_outline_sync w (Except.ok o)).1.run.map RunRecord.status)
          = some "succeeded" ∧
      (generate_roadmap_outline_sync w (Except.ok o)).2.1
          = SyncResult.okResult w.nextId) := by
  constructor
  · intro w r g hw h1 h2 h3
    have hrun : ({ w with run := w.run.map workerPickupUpdate } : OutlineWorld)
        = { w with run := some (workerPickupUpdate r) } := by
      rw [hw]
      rfl
    unfold processOutlineDelivered
    rw [hrun]
    exact ⟨rfl, rfl, rfl⟩
  · intro w r rm o hw h1 h2 h3 hrm
    have hif1 : ¬ (r.status = "succeeded" ∨ r.status = "failed") := by
      simp [h1, h2]
    simp only [generate_roadmap_outline_sync, hw, hrm]
    rw [if_neg hif1, if_neg h3]
    exact ⟨rfl, rfl, rfl, by simp, rfl, rfl, rfl⟩

/-- Claim C2 witness: the worker-path result on a concrete queued run with
an existing roadmap and a successfully generated outline. -/
theorem c2_outline_job_always_skipped_witness :
    processOutlineDelivered wQueued (Except.ok outlineEx) =
      ({ wQueued with run := some (workerPickupUpdate queuedRun) },
        SyncResult.skipped "running", []) :=
  (c2_outline_job_always_skipped.1 wQueued queuedRun (Except.ok outlineEx)
    rfl (by decide) (by decide) (by decide)).1

/-- Claim C3: if handling a job raises a transient error on 4 consecutive
deliveries (rendered `e0..e3`), then after the 4th delivery the run's final
status is failed with the error recording that retries were exhausted, the
message is absent from both the pending and the processing lists, and a
further worker iteration is a no-op — the message is not redelivered a 4th
time given MAX_RETRIES = 3. -/
theorem c3_retry_exhaustion (e0 e1 e2 e3 : String) :
    (retryScenario e0 e1 e2 e3).pending = [] ∧
    (retryScenario e0 e1 e2 e3).processing = [] ∧
    (retryScenario e0 e1 e2 e3).run.status = "failed" ∧
    (retryScenario e0 e1 e2 e3).run.error = some ("Retries exhausted: " ++ e3) ∧
    (retryScenario e0 e1 e2 e3).run.finishedAt = true ∧
    workerDeliveryFail e3 (retryScenario e0 e1 e2 e3) = retryScenario e0 e1 e2 e3 := by
  refine ⟨rfl, rfl, rfl, rfl, rfl, rfl⟩

/-- Claim C3 witness: the exhaustion facts at a concrete transient error. -/
theorem c3_retry_exhaustion_witness :
    (retryScenario "TransportError: t" "TransportError: t" "TransportError: t"
        "TransportError: t").run.status = "failed" ∧
    (retryScenario "TransportError: t" "TransportError: t" "TransportError: t"
        "TransportError: t").pending = [] :=
  ⟨(c3_retry_exhaustion "TransportError: t" "TransportError: t"
      "TransportError: t" "TransportError: t").2.2.1,
   (c3_retry_exhaustion "TransportError: t" "TransportError: t"
      "TransportError: t" "TransportError: t").1⟩

theorem engineGo_calls_le (parse : String → Except String RoadmapOutline)
    (gen : Nat → String) (dw : Nat) (base : String) :
    ∀ (fuel : Nat) (prompt : String) (idx : Nat) (le : Option String)
      (calls : List GenCall),
      (engineGo parse gen dw base fuel prompt idx le calls).calls.length ≤
        calls.length + fuel := by
  intro fuel
  induction fuel with
  | zero => intro prompt idx le calls; simp [engineGo]
  | succ fuel ih =>
    intro prompt idx le calls
    simp only [engineGo]
    cases hp : parse (gen idx) with
    | ok o =>
      cases hv : _validate_outline o dw with
      | none => simp [hp, hv]
      | some e =>
        simp only [hp, hv]
        cases he : _extract_first_json_object (gen idx) with
        | none =>
          simp only [he]
          have := ih (repair_planner_prompt base dw e ((Option.none).getD (gen idx)))
            (idx + 1) (some e)
            (calls ++ [{ system := SYSTEM_PLANNER, user := prompt, tempTenths := 1 }])
          simp only [List.length_append, List.length_nil, List.length_cons] at this ⊢
          omega
        | some ej =>
          simp only [he]
          cases hp2 : parse ej with
          | ok o2 =>
            cases hv2 : _validate_outline o2 dw with
            | none => simp [hp2, hv2]
            | some e2 =>
              simp only [hp2, hv2]
              have := ih (repair_planner_prompt base dw e2 ((some ej).getD (gen idx)))
                (idx + 1) (some e2)
                (calls ++ [{ system := SYSTEM_PLANNER, user := prompt, tempTenths := 1 }])
              simp only [List.length_append, List.length_nil, List.length_cons] at this ⊢
              omega
          | error pe2 =>
            simp only [hp2]
            have := ih (repair_planner_prompt base dw pe2 ((some ej).getD (gen idx)))
              (idx + 1) (some pe2)
              (calls ++ [{ system := SYSTEM_PLANNER, user := prompt, tempTenths := 1 }])
            simp only [List.length_append, List.length_nil, List.length_cons] at this ⊢
            omega
    | error pe =>
      simp only [hp]
      cases he : _extract_first_json_object (gen idx) with
      | none =>
        simp only [he]
        have := ih (repair_planner_prompt base dw pe ((Option.none).getD (gen idx)))
          (idx + 1) (some pe)
          (calls ++ [{ system := SYSTEM_PLANNER, user := prompt, tempTenths := 1 }])
        simp only [List.length_append, List.length_nil, List.length_cons] at this ⊢
        omega
      | some ej =>
        simp only [he]
        cases hp2 : parse ej with
        | ok o2 =>
          cases hv2 : _validate_outline o2 dw with
          | none => simp [hp2, hv2]
          | some e2 =>
            simp only [hp2, hv2]
            have := ih (repair_planner_prompt base dw e2 ((some ej).getD (gen idx)))
              (idx + 1) (some e2)
              (calls ++ [{ system := SYSTEM_PLANNER, user := prompt, tempTenths := 1 }])
            simp only [List.length_append, List.length_nil, List.length_cons] at this ⊢
            omega
        | error pe2 =>
          simp only [hp2]
          have := ih (repair_planner_prompt base dw pe2 ((some ej).getD (gen idx)))
            (idx + 1) (some pe2)
            (calls ++ [{ system := SYSTEM_PLANNER, user := prompt, tempTenths := 1 }])
          simp only [List.length_append, List.length_nil, List.length_cons] at this ⊢
          omega

theorem engineGo_never_valid (parse : String → Except String RoadmapOutline)
    (gen : Nat → String) (dw : Nat) (base : String)
    (hval : ∀ t o, parse t = Except.ok o → _validate_outline o dw ≠ none) :
    ∀ (fuel : Nat) (prompt : String) (idx : Nat) (le : Option String)
      (calls : List GenCall),
      ∃ m, (engineGo parse gen dw base fuel prompt idx le calls).result =
        Except.error m := by
  intro fuel
  induction fuel with
  | zero => intro prompt idx le calls; exact ⟨_, rfl⟩
  | succ fuel ih =>
    intro prompt idx le calls
    simp only [engineGo]
    cases hp : parse (gen idx) with
    | ok o =>
      cases hv : _validate_outline o dw with
      | none => exact absurd hv (hval (gen idx) o hp)
      | some e =>
        simp only [hp, hv]
        cases he : _extract_first_json_object (gen idx) with
        | none => simp only [he]; exact ih _ _ _ _
        | some ej =>
          simp only [he]
          cases hp2 : parse ej with
          | ok o2 =>
            cases hv2 : _validate_outline o2 dw with
            | none => exact absurd hv2 (hval ej o2 hp2)
            | some e2 => simp only [hp2, hv2]; exact ih _ _ _ _
          | error pe2 => simp only [hp2]; exact ih _ _ _ _
    | error pe =>
      simp only [hp]
      cases he : _extract_first_json_object (gen idx) with
      | none => simp only [he]; exact ih _ _ _ _
      | some ej =>
        simp only [he]
        cases hp2 : parse ej with
        | ok o2 =>
          cases hv2 : _validate_outline o2 dw with
          | none => exact absurd hv2 (hval ej o2 hp2)
          | some e2 => simp only [hp2, hv2]; exact ih _ _ _ _
        | error pe2 => simp only [hp2]; exact ih _ _ _ _

theorem engineGo_all_parse_fail (parse : String → Except String RoadmapOutline)
    (gen : Nat → String) (dw : Nat) (base : String)
    (hok : ∀ t o, parse t = Except.ok o → False) :
    ∀ (fuel : Nat) (prompt : String) (idx : Nat) (le : Option String)
      (calls : List GenCall),
      (engineGo parse gen dw base fuel prompt idx le calls).calls.length =
          calls.length + fuel ∧
      ∃ m, (engineGo parse gen dw base fuel prompt idx le calls).result =
        Except.error m := by
  intro fuel
  induction fuel with
  | zero => intro prompt idx le calls; exact ⟨rfl, _, rfl⟩
  | succ fuel ih =>
    intro prompt idx le calls
    simp only [engineGo]
    cases hp : parse (gen idx) with
    | ok o => exact absurd hp (fun h => hok (gen idx) o h)
    | error pe =>
      simp only [hp]
      cases he : _extract_first_json_object (gen idx) with
      | none =>
        simp only [he]
        have := ih (repair_planner_prompt base dw pe ((Option.none).getD (gen idx)))
          (idx + 1) (some pe)
          (calls ++ [{ system := SYSTEM_PLANNER, user := prompt, tempTenths := 1 }])
        refine ⟨?_, this.2⟩
        rw [this.1]
        simp only [List.length_append, List.length_nil, List.length_cons]
        omega
      | some ej =>
        simp only [he]
        cases hp2 : parse ej with
        | ok o2 => exact absurd hp2 (fun h => hok ej o2 h)
        | error pe2 =>
          simp only [hp2]
          have := ih (repair_planner_prompt base dw pe2 ((some ej).getD (gen idx)))
            (idx + 1) (some pe2)
            (calls ++ [{ system := SYSTEM_PLANNER, user := prompt, tempTenths := 1 }])
          refine ⟨?_, this.2⟩
          rw [this.1]
          simp only [List.length_append, List.length_nil, List.length_cons]
          omega

/-- Claim C4 counterexample: in the outline instance of the repair loop,
after the primary generation fails parse plus validate and the fallback
extraction also fails, the engine does not stop at one repair round — with
a generator that always answers `hello` (which has no JSON object, so the
pydantic parse fails and extraction finds no brace) the engine makes 3
generator calls in total, all at the same temperature 0.1, before raising
its terminal error; so the repaired output failing does not end the engine
without further generator calls, and the repair round is not at a lower
temperature. -/
theorem c4_counterexample :
    c4CounterEngine.calls.length = 3 ∧
    c4CounterEngine.calls.map GenCall.tempTenths = [1, 1, 1] ∧
    ∃ m, c4CounterEngine.result = Except.error m := by
  refine ⟨rfl, rfl, ⟨_, rfl⟩⟩

/-- Claim C4 (amended): the module-writer instance of the repair engine
behaves as the claim states — when the primary output fails validation it
builds the repair prompt from the original prompt, the error description
and the invalid output, regenerates exactly once at a lower temperature
(0.1 after 0.2), and if the repaired output also fails it raises a terminal
error after exactly 2 generator calls; the outline instance instead makes
at most 3 generator calls (primary plus two repair rounds, all at 0.1), and
exactly 3 before its terminal error when no generation ever parses. -/
theorem c4_repair_rounds :
    (∀ (gen : Nat → String) (field level : String) (week : Nat)
       (title : String) (outcomes : List String) (e1 e2 : ModuleError),
      validate_module_markdown (pyStrip (gen 0)) = some e1 →
      validate_module_markdown (pyStrip (gen 1)) = some e2 →
      (write_module_markdown gen field level week title outcomes).result =
          Except.error ("Module markdown validation failed after repair: " ++
            renderModuleError e2) ∧
      (write_module_markdown gen field level week title outcomes).calls.length = 2 ∧
      (write_module_markdown gen field level week title outcomes).calls.map
          GenCall.tempTenths = [2, 1] ∧
      (write_module_markdown gen field level week title outcomes).calls.map
          GenCall.user =
        [build_module_prompt field level week title outcomes,
         repair_module_prompt (build_module_prompt field level week title outcomes)
           (renderModuleError e1) (pyStrip (gen 0))]) ∧
    (∀ (parse : String → Except String RoadmapOutline) (gen : Nat → String)
       (field level : String) (wh dw : Nat),
      (generate_roadmap_outline parse gen field level wh dw).calls.length ≤ 3) ∧
    (∀ (parse : String → Except String RoadmapOutline) (gen : Nat → String)
       (field level : String) (wh dw : Nat),
      (∀ t o, parse t = Except.ok o → False) →
      (generate_roadmap_outline parse gen field level wh dw).calls.length = 3 ∧
      ∃ m, (generate_roadmap_outline parse gen field level wh dw).result =
        Except.error m) := by
  refine ⟨?_, ?_, ?_⟩
  · intro gen field level week title outcomes e1 e2 h1 h2
    simp only [write_module_markdown, h1, h2]
    refine ⟨?_, ?_, ?_, ?_⟩ <;> first | rfl | trivial
  · intro parse gen field level wh dw
    unfold generate_roadmap_outline
    have := engineGo_calls_le parse gen dw
      (build_planner_prompt field level wh dw) 3
      (build_planner_prompt field level wh dw) 0 none []
    simpa using this
  · intro parse gen field level wh dw hok
    unfold generate_roadmap_outline
    have := engineGo_all_parse_fail parse gen dw
      (build_planner_prompt field level wh dw) hok 3
      (build_planner_prompt field level wh dw) 0 none []
    simpa using this

/-- Claim C4 witness: both amended behaviours at concrete inputs — the
module writer makes exactly two calls at temperatures 0.2 then 0.1 for an
always-invalid generator, and the outline engine makes exactly 3 calls for
an always-failing parser. -/
theorem c4_repair_rounds_witness :
    (write_module_markdown (fun _ => "hello") "Algebra" "beginner" 3 "Groups"
        ["state axioms", "give examples"]).calls.map GenCall.tempTenths = [2, 1] ∧
    (generate_roadmap_outline (fun _ => Except.error "E") (fun _ => "x")
        "Algebra" "beginner" 5 12).calls.length = 3 := by
  constructor
  · exact (c4_repair_rounds.1 (fun _ => "hello") "Algebra" "beginner" 3 "Groups"
      ["state axioms", "give examples"]
      (ModuleError.headings required_headings [])
      (ModuleError.headings required_headings [])
      (by decide) (by decide)).2.2.1
  · exact (c4_repair_rounds.2.2 (fun _ => Except.error "E") (fun _ => "x")
      "Algebra" "beginner" 5 12
      (fun t o h => Except.noConfusion h)).1

/-- Claim C10: for any requested duration outside [4,52], no sequence of
generator outputs can make `generate_roadmap_outline` return an outline:
every value the pydantic parse can produce has between 4 and 52 weeks
(the schema bounds), validation demands exactly `duration_weeks` weeks, so
every round fails and the engine raises its terminal error. -/
theorem c10_out_of_range_duration (parse : String → Except String RoadmapOutline)
    (gen : Nat → String) (field level : String) (wh dw : Nat)
    (hp : ∀ t o, parse t = Except.ok o → schemaOk o)
    (hdw : dw < 4 ∨ 52 < dw) :
    ∃ m, (generate_roadmap_outline parse gen field level wh dw).result =
      Except.error m := by
  have hval : ∀ t o, parse t = Except.ok o → _validate_outline o dw ≠ none := by
    intro t o hpo hnone
    have hs := hp t o hpo
    unfold _validate_outline at hnone
    have hlen : o.weeks.length ≠ dw := by
      rcases hs with ⟨⟨h4, h52⟩, -⟩
      omega
    rw [if_pos hlen] at hnone
    exact absurd hnone (Option.some_ne_none _)
  unfold generate_roadmap_outline
  exact engineGo_never_valid parse gen dw
    (build_planner_prompt field level wh dw) hval 3
    (build_planner_prompt field level wh dw) 0 none []

/-- Claim C10 witness: with a parser that rejects everything (vacuously
schema-sound) and duration 3 < 4, the engine ends in its terminal error. -/
theorem c10_out_of_range_duration_witness :
    ∃ m, (generate_roadmap_outline (fun _ => Except.error "E") (fun _ => "x")
      "Math" "beginner" 5 3).result = Except.error m :=
  c10_out_of_range_duration (fun _ => Except.error "E") (fun _ => "x")
    "Math" "beginner" 5 3 (fun t o h => Except.noConfusion h)
    (Or.inl (by decide))
